import Mathlib

/-!
Verification of the robosim-studio simulation core
(`src/backend/simulation_runner.py`) against its specification.

The embedding models:
* `Goal`, `Robot` — the per-robot state dictionaries built in
  `SimulationRunner.__init__`;
* `atan2` — `np.arctan2` on real numbers;
* `updateRobotPosition` — `SimulationRunner._update_robot_position`;
* `advanceRobots`, `allCompletedFlag`, `runAux` — the generator loop of
  `SimulationRunner.run`, with the cross-thread `paused` / `stopped`
  flags frozen for the portion of the run being analysed (they are only
  ever read at the top of the loop) and an explicit fuel argument so
  that a diverging loop is represented by `none`;
* `RunnerFlags`, `set_paused`, `stop` — the control surface.
-/

namespace RoboSim

/-- A goal waypoint `{x, y}`, one entry of `robot['goals']`. -/
structure Goal where
  x : ℝ
  y : ℝ

/-- One robot's state dictionary as built in `SimulationRunner.__init__`:
position, orientation `theta`, progress pointer `goal_index`, the ordered
goal list, and the remaining configured attributes. -/
structure Robot where
  id : String
  x : ℝ
  y : ℝ
  theta : ℝ
  goal_index : ℕ
  goals : List Goal
  color : String
  radius : ℝ
  max_speed : ℝ

/-- `np.arctan2 y x`: the angle of the vector `(x, y)`, in `(-π, π]`,
with `atan2 0 0 = 0`. -/
noncomputable def atan2 (y x : ℝ) : ℝ :=
  if 0 < x then Real.arctan (y / x)
  else if x < 0 then
    if 0 ≤ y then Real.arctan (y / x) + Real.pi
    else Real.arctan (y / x) - Real.pi
  else if 0 < y then Real.pi / 2
  else if y < 0 then -(Real.pi / 2)
  else 0

/-- The Euclidean distance `np.sqrt(dx**2 + dy**2)` from a robot to a
goal point, exactly as computed in `_update_robot_position`. -/
noncomputable def goalDistance (r : Robot) (g : Goal) : ℝ :=
  Real.sqrt ((g.x - r.x) ^ 2 + (g.y - r.y) ^ 2)

/-- `SimulationRunner._update_robot_position(robot_state, goal_threshold)`
(simulation_runner.py lines 99-121): return unchanged when all goals are
done; otherwise compute the distance to the current goal; if it is below
`goal_threshold`, advance `goal_index`; else move by
`speed = min(max_speed * 0.1, distance)` along the direction to the goal
and snap `theta` to `np.arctan2(dy, dx)`. -/
noncomputable def updateRobotPosition (r : Robot) (goal_threshold : ℝ) : Robot :=
  if h : r.goals.length ≤ r.goal_index then r
  else
    let current_goal := r.goals.get ⟨r.goal_index, by omega⟩
    let dx := current_goal.x - r.x
    let dy := current_goal.y - r.y
    let distance := Real.sqrt (dx ^ 2 + dy ^ 2)
    if distance < goal_threshold then
      { r with goal_index := r.goal_index + 1 }
    else
      let speed := min (r.max_speed * 0.1) distance
      { r with
        x := r.x + dx / distance * speed
        y := r.y + dy / distance * speed
        theta := atan2 dy dx }

/-- The robot-advancing pass of one iteration of `SimulationRunner.run`
(lines 74-77): every robot with `goal_index < len(goals)` is advanced by
`_update_robot_position`; completed robots are left untouched. -/
noncomputable def advanceRobots (goal_threshold : ℝ) (robots : List Robot) : List Robot :=
  robots.map fun r =>
    if r.goal_index < r.goals.length then updateRobotPosition r goal_threshold else r

/-- The `all_completed` flag computed by the same pass (lines 73-76): it
starts `True` and is cleared by every robot whose `goal_index` is still
below `len(goals)` *at the start of the iteration*, before that robot is
advanced. -/
def allCompletedFlag (robots : List Robot) : Bool :=
  robots.all fun r => decide (r.goals.length ≤ r.goal_index)

/-- One output record of the `run` generator: either a rendered frame
(`{'frame': fig, 'status': 'running'}`, modelled by the robot states and
step number passed to `_render_state`) or `{'status': 'completed'}`.
The generator has no other `yield` statement. -/
inductive OutRec where
  | frame (robots : List Robot) (step : ℕ)
  | completed

/-- The `while` loop of `SimulationRunner.run` (lines 63-97), entered at
the top of an iteration with step counter `step` and the given robot
states, with the `paused` and `stopped` flags frozen at the given values.
`fuel` bounds the number of iterations still modelled: `none` means the
loop did not exit within `fuel` iterations (e.g. a permanently paused
run). On exit the trailing `if step >= max_steps` yields one final
`completed` record; the returned pair is the yielded records and the
final value of `step`. -/
noncomputable def runAux (paused stopped : Bool) (max_steps : ℕ) (goal_threshold : ℝ) :
    ℕ → List Robot → ℕ → Option (List OutRec × ℕ)
  | 0, _robots, step =>
    if step < max_steps ∧ stopped = false then none
    else some (if max_steps ≤ step then [OutRec.completed] else [], step)
  | fuel + 1, robots, step =>
    if step < max_steps ∧ stopped = false then
      if paused then
        runAux paused stopped max_steps goal_threshold fuel robots step
      else
        let all_completed := allCompletedFlag robots
        let robots2 := advanceRobots goal_threshold robots
        if all_completed then
          some ([OutRec.frame robots2 step, OutRec.completed], step)
        else
          match runAux paused stopped max_steps goal_threshold fuel robots2 (step + 1) with
          | none => none
          | some (rest, fin) => some (OutRec.frame robots2 step :: rest, fin)
    else some (if max_steps ≤ step then [OutRec.completed] else [], step)

/-- The two cross-thread control flags of `SimulationRunner`. -/
structure RunnerFlags where
  paused : Bool
  stopped : Bool

/-- `SimulationRunner.set_paused(paused)` (lines 224-227): assigns the
flag unconditionally; there is no state check and no failure path. -/
def set_paused (s : RunnerFlags) (p : Bool) : RunnerFlags :=
  { s with paused := p }

/-- `SimulationRunner.stop()` (lines 229-232): sets `stopped`
unconditionally. -/
def stop (s : RunnerFlags) : RunnerFlags :=
  { s with stopped := true }

/-- The motion branch of `_update_robot_position` divides `dx` and `dy`
by `distance`; this predicate says that branch is executed with
`distance = 0`, i.e. the program performs a division by zero. -/
def reachesDivisionByZero (r : Robot) (thr : ℝ) : Prop :=
  ∃ h : r.goal_index < r.goals.length,
    ¬ goalDistance r (r.goals.get ⟨r.goal_index, h⟩) < thr ∧
      goalDistance r (r.goals.get ⟨r.goal_index, h⟩) = 0

/-- Number of `frame` records in a generator output, i.e. the number of
loop iterations that executed a step and rendered. -/
def countFrames : List OutRec → ℕ
  | [] => 0
  | OutRec.frame _ _ :: rest => countFrames rest + 1
  | OutRec.completed :: rest => countFrames rest

/-- Scenario A robot of the spec: at `(0, 0)`, single goal `(10, 0)`,
`max_speed = 5` (the claim's `max_linear_speed`). -/
noncomputable def scenarioRobot : Robot :=
  { id := "robot_0", x := 0, y := 0, theta := 0, goal_index := 0,
    goals := [{ x := 10, y := 0 }], color := "#00d9ff", radius := 15, max_speed := 5 }

/-- A robot standing exactly on its single goal. -/
noncomputable def atGoalRobot : Robot :=
  { id := "robot_1", x := 0, y := 0, theta := 0, goal_index := 0,
    goals := [{ x := 0, y := 0 }], color := "#00ff88", radius := 15, max_speed := 5 }

/-! ### Branch lemmas for `_update_robot_position` -/

/-- Completed robots are returned unchanged. -/
theorem updateRobotPosition_of_done (r : Robot) (thr : ℝ)
    (h : r.goals.length ≤ r.goal_index) :
    updateRobotPosition r thr = r := by
  rw [updateRobotPosition, dif_pos h]

/-- Arrival branch: below the threshold, only `goal_index` changes. -/
theorem updateRobotPosition_of_arrived (r : Robot) (thr : ℝ)
    (h : r.goal_index < r.goals.length)
    (harr : goalDistance r (r.goals.get ⟨r.goal_index, h⟩) < thr) :
    updateRobotPosition r thr = { r with goal_index := r.goal_index + 1 } := by
  rw [updateRobotPosition, dif_neg (by omega)]
  exact if_pos harr

/-- Motion branch: at or above the threshold, the robot moves by the
clamped speed along the direction to the goal and `goal_index` is kept. -/
theorem updateRobotPosition_of_far (r : Robot) (thr : ℝ)
    (h : r.goal_index < r.goals.length)
    (hfar : ¬ goalDistance r (r.goals.get ⟨r.goal_index, h⟩) < thr) :
    updateRobotPosition r thr =
      { r with
        x := r.x + (((r.goals.get ⟨r.goal_index, h⟩).x - r.x) /
              goalDistance r (r.goals.get ⟨r.goal_index, h⟩)) *
              min (r.max_speed * 0.1) (goalDistance r (r.goals.get ⟨r.goal_index, h⟩))
        y := r.y + (((r.goals.get ⟨r.goal_index, h⟩).y - r.y) /
              goalDistance r (r.goals.get ⟨r.goal_index, h⟩)) *
              min (r.max_speed * 0.1) (goalDistance r (r.goals.get ⟨r.goal_index, h⟩))
        theta := atan2 ((r.goals.get ⟨r.goal_index, h⟩).y - r.y)
              ((r.goals.get ⟨r.goal_index, h⟩).x - r.x) } := by
  rw [updateRobotPosition, dif_neg (by omega)]
  exact if_neg hfar

/-! ### Evaluating the model on the concrete robots -/

theorem scenarioRobot_index_lt : scenarioRobot.goal_index < scenarioRobot.goals.length := by
  decide

theorem scenarioRobot_goal :
    scenarioRobot.goals.get ⟨scenarioRobot.goal_index, scenarioRobot_index_lt⟩ =
      { x := 10, y := 0 } := rfl

theorem scenarioRobot_distance :
    goalDistance scenarioRobot
      (scenarioRobot.goals.get ⟨scenarioRobot.goal_index, scenarioRobot_index_lt⟩) = 10 := by
  rw [scenarioRobot_goal]
  simp only [goalDistance, scenarioRobot]
  rw [show ((10 : ℝ) - 0) ^ 2 + ((0 : ℝ) - 0) ^ 2 = 10 ^ 2 by norm_num]
  exact Real.sqrt_sq (by norm_num)

/-- Evaluating `_update_robot_position` on the Scenario A robot with
`goal_threshold = 1`: the robot moves to `(0.5, 0)`. -/
theorem update_scenarioRobot :
    updateRobotPosition scenarioRobot 1 =
      { scenarioRobot with x := 0.5, y := 0, theta := 0 } := by
  rw [updateRobotPosition_of_far scenarioRobot 1 scenarioRobot_index_lt
      (by rw [scenarioRobot_distance]; norm_num),
    scenarioRobot_distance, scenarioRobot_goal]
  simp only [scenarioRobot, atan2]
  norm_num [Robot.mk.injEq, Real.arctan_zero, min_def]

theorem atGoalRobot_index_lt : atGoalRobot.goal_index < atGoalRobot.goals.length := by
  decide

theorem atGoalRobot_distance :
    goalDistance atGoalRobot
      (atGoalRobot.goals.get ⟨atGoalRobot.goal_index, atGoalRobot_index_lt⟩) = 0 := by
  simp only [goalDistance, atGoalRobot]
  norm_num [Real.sqrt_zero]

/-- Evaluating `_update_robot_position` on a robot standing on its goal
with `goal_threshold = 1`: only `goal_index` advances. -/
theorem update_atGoalRobot :
    updateRobotPosition atGoalRobot 1 = { atGoalRobot with goal_index := 1 } := by
  rw [updateRobotPosition_of_arrived atGoalRobot 1 atGoalRobot_index_lt
      (by rw [atGoalRobot_distance]; norm_num)]
  rfl

theorem advance_atGoalRobot :
    advanceRobots 1 [atGoalRobot] = [{ atGoalRobot with goal_index := 1 }] := by
  simp only [advanceRobots, List.map]
  rw [if_pos atGoalRobot_index_lt, update_atGoalRobot]

theorem advance_completedRobot :
    advanceRobots 1 [{ atGoalRobot with goal_index := 1 }] =
      [{ atGoalRobot with goal_index := 1 }] := by
  simp only [advanceRobots, List.map]
  rw [if_neg (by decide)]

/-! ### Loop lemmas for `run` -/

/-- Unfolding one running (unpaused, unstopped) iteration of the loop
with the guard satisfied. -/
theorem runAux_running (maxS : ℕ) (thr : ℝ) (fuel : ℕ) (robots : List Robot) (step : ℕ)
    (hstep : step < maxS) :
    runAux false false maxS thr (fuel + 1) robots step =
      if allCompletedFlag robots then
        some ([OutRec.frame (advanceRobots thr robots) step, OutRec.completed], step)
      else
        match runAux false false maxS thr fuel (advanceRobots thr robots) (step + 1) with
        | none => none
        | some (rest, fin) => some (OutRec.frame (advanceRobots thr robots) step :: rest, fin) := by
  simp only [runAux, hstep, and_true, if_true, Bool.false_eq_true, if_false, and_self]

/-- When the loop guard fails (`step >= max_steps` or `stopped`), the
loop body never runs: only the trailing max-steps check can yield. -/
theorem runAux_exit (p s : Bool) (maxS : ℕ) (thr : ℝ) (fuel : ℕ)
    (robots : List Robot) (step : ℕ) (hguard : ¬(step < maxS ∧ s = false)) :
    runAux p s maxS thr fuel robots step =
      some (if maxS ≤ step then [OutRec.completed] else [], step) := by
  cases fuel <;> · rw [runAux, if_neg hguard]

/-- Moving from the origin of the displacement `(dx, dy)` by `s` along
the unit vector `(dx, dy) / distance` leaves a residual distance of
exactly `distance - s`, for any `0 ≤ s ≤ distance`. -/
theorem dist_shrink (dx dy s : ℝ) (hs0 : 0 ≤ s)
    (hsd : s ≤ Real.sqrt (dx ^ 2 + dy ^ 2)) :
    Real.sqrt ((dx - dx / Real.sqrt (dx ^ 2 + dy ^ 2) * s) ^ 2 +
        (dy - dy / Real.sqrt (dx ^ 2 + dy ^ 2) * s) ^ 2) =
      Real.sqrt (dx ^ 2 + dy ^ 2) - s := by
  have hd0 : 0 ≤ Real.sqrt (dx ^ 2 + dy ^ 2) := Real.sqrt_nonneg _
  rcases eq_or_lt_of_le hd0 with hd | hd
  · have hzero : dx ^ 2 + dy ^ 2 = 0 := by
      have := Real.sq_sqrt (by positivity : (0:ℝ) ≤ dx ^ 2 + dy ^ 2)
      rw [← hd] at this
      simpa using this.symm
    have hdx : dx = 0 := by nlinarith [sq_nonneg dx, sq_nonneg dy]
    have hdy : dy = 0 := by nlinarith [sq_nonneg dx, sq_nonneg dy]
    have hs : s = 0 := le_antisymm (by rw [← hd] at hsd; exact hsd) hs0
    rw [hdx, hdy, hs]
    norm_num
  · set d := Real.sqrt (dx ^ 2 + dy ^ 2) with hdd
    have hdne : d ≠ 0 := ne_of_gt hd
    have hd2 : d ^ 2 = dx ^ 2 + dy ^ 2 := Real.sq_sqrt (by positivity)
    have key : (dx - dx / d * s) ^ 2 + (dy - dy / d * s) ^ 2 =
        (dx ^ 2 + dy ^ 2) * ((d - s) / d) ^ 2 := by
      field_simp
      ring
    rw [key, Real.sqrt_mul (by positivity), Real.sqrt_sq_eq_abs, ← hdd,
      abs_of_nonneg (div_nonneg (by linarith) hd.le)]
    field_simp

/-- Form of `dist_shrink` matching the position-update expressions of
the motion branch: the residual distance after the clamped move never
exceeds the original distance. -/
theorem dist_shrink_le (x y gx gy s : ℝ) (hs0 : 0 ≤ s)
    (hsd : s ≤ Real.sqrt ((gx - x) ^ 2 + (gy - y) ^ 2)) :
    Real.sqrt ((gx - (x + (gx - x) / Real.sqrt ((gx - x) ^ 2 + (gy - y) ^ 2) * s)) ^ 2 +
        (gy - (y + (gy - y) / Real.sqrt ((gx - x) ^ 2 + (gy - y) ^ 2) * s)) ^ 2) ≤
      Real.sqrt ((gx - x) ^ 2 + (gy - y) ^ 2) := by
  have h1 : gx - (x + (gx - x) / Real.sqrt ((gx - x) ^ 2 + (gy - y) ^ 2) * s) =
      (gx - x) - (gx - x) / Real.sqrt ((gx - x) ^ 2 + (gy - y) ^ 2) * s := by ring
  have h2 : gy - (y + (gy - y) / Real.sqrt ((gx - x) ^ 2 + (gy - y) ^ 2) * s) =
      (gy - y) - (gy - y) / Real.sqrt ((gx - x) ^ 2 + (gy - y) ^ 2) * s := by ring
  rw [h1, h2, dist_shrink _ _ _ hs0 hsd]
  linarith

/-! ### Per-step invariant helpers -/

/-- The goal list is never modified by `_update_robot_position`. -/
theorem updateRobotPosition_goals (r : Robot) (thr : ℝ) :
    (updateRobotPosition r thr).goals = r.goals := by
  by_cases hdone : r.goals.length ≤ r.goal_index
  · rw [updateRobotPosition_of_done r thr hdone]
  · push_neg at hdone
    by_cases harr : goalDistance r (r.goals.get ⟨r.goal_index, hdone⟩) < thr
    · rw [updateRobotPosition_of_arrived r thr hdone harr]
    · rw [updateRobotPosition_of_far r thr hdone harr]

/-- `goal_index` never decreases in one update. -/
theorem updateRobotPosition_goal_index_mono (r : Robot) (thr : ℝ) :
    r.goal_index ≤ (updateRobotPosition r thr).goal_index := by
  by_cases hdone : r.goals.length ≤ r.goal_index
  · rw [updateRobotPosition_of_done r thr hdone]
  · push_neg at hdone
    by_cases harr : goalDistance r (r.goals.get ⟨r.goal_index, hdone⟩) < thr
    · rw [updateRobotPosition_of_arrived r thr hdone harr]
      exact Nat.le_succ _
    · rw [updateRobotPosition_of_far r thr hdone harr]

/-- `goal_index` never exceeds the number of goals after one update. -/
theorem updateRobotPosition_goal_index_le (r : Robot) (thr : ℝ)
    (h : r.goal_index ≤ r.goals.length) :
    (updateRobotPosition r thr).goal_index ≤ r.goals.length := by
  by_cases hdone : r.goals.length ≤ r.goal_index
  · rw [updateRobotPosition_of_done r thr hdone]
    exact h
  · push_neg at hdone
    by_cases harr : goalDistance r (r.goals.get ⟨r.goal_index, hdone⟩) < thr
    · rw [updateRobotPosition_of_arrived r thr hdone harr]
      exact hdone
    · rw [updateRobotPosition_of_far r thr hdone harr]
      exact h

/-! ### Claim C1 -/

/-- **C1** (amended): for every agent whose distance to its current goal
is at least `goal_threshold`, one advance call moves the agent by
`speed = min(max_speed * 0.1, distance)` — the `0.1` factor is hardcoded
in `_update_robot_position`, not the configured `time_step` — along the
unit vector toward the goal, and sets the orientation to
`atan2 dy dx`. -/
theorem claim1_motion_law (r : Robot) (thr : ℝ)
    (h : r.goal_index < r.goals.length)
    (hfar : ¬ goalDistance r (r.goals.get ⟨r.goal_index, h⟩) < thr) :
    (updateRobotPosition r thr).x =
      r.x + ((r.goals.get ⟨r.goal_index, h⟩).x - r.x) /
        goalDistance r (r.goals.get ⟨r.goal_index, h⟩) *
        min (r.max_speed * 0.1) (goalDistance r (r.goals.get ⟨r.goal_index, h⟩)) ∧
    (updateRobotPosition r thr).y =
      r.y + ((r.goals.get ⟨r.goal_index, h⟩).y - r.y) /
        goalDistance r (r.goals.get ⟨r.goal_index, h⟩) *
        min (r.max_speed * 0.1) (goalDistance r (r.goals.get ⟨r.goal_index, h⟩)) ∧
    (updateRobotPosition r thr).theta =
      atan2 ((r.goals.get ⟨r.goal_index, h⟩).y - r.y)
        ((r.goals.get ⟨r.goal_index, h⟩).x - r.x) := by
  rw [updateRobotPosition_of_far r thr h hfar]
  exact ⟨rfl, rfl, rfl⟩

/-- **C1** witness: the motion law applied to the Scenario A robot with
`goal_threshold = 1`. -/
theorem claim1_motion_law_witness :
    (¬ goalDistance scenarioRobot
        (scenarioRobot.goals.get ⟨scenarioRobot.goal_index, scenarioRobot_index_lt⟩) < 1) ∧
    (updateRobotPosition scenarioRobot 1).x =
      scenarioRobot.x +
        ((scenarioRobot.goals.get ⟨scenarioRobot.goal_index, scenarioRobot_index_lt⟩).x -
            scenarioRobot.x) /
          goalDistance scenarioRobot
            (scenarioRobot.goals.get ⟨scenarioRobot.goal_index, scenarioRobot_index_lt⟩) *
          min (scenarioRobot.max_speed * 0.1)
            (goalDistance scenarioRobot
              (scenarioRobot.goals.get ⟨scenarioRobot.goal_index, scenarioRobot_index_lt⟩)) := by
  have hfar : ¬ goalDistance scenarioRobot
      (scenarioRobot.goals.get ⟨scenarioRobot.goal_index, scenarioRobot_index_lt⟩) < 1 := by
    rw [scenarioRobot_distance]
    norm_num
  exact ⟨hfar, (claim1_motion_law scenarioRobot 1 scenarioRobot_index_lt hfar).1⟩

/-- **C1** counterexample: with the claim's Scenario A input (agent at
`(0,0)`, goal `(10,0)`, `goal_threshold = 1`, `max_linear_speed = 5`),
the first advance moves the agent to `x = 0.5`, not to `x = 5` as the
claim's `speed = min(max_linear_speed * time_step, distance)` with
`time_step = 1` would require: the code has no `time_step` parameter and
hardcodes the factor `0.1`. -/
theorem claim1_counterexample :
    (updateRobotPosition scenarioRobot 1).x = 0.5 ∧
      (updateRobotPosition scenarioRobot 1).x ≠ 5 := by
  rw [update_scenarioRobot]
  exact ⟨rfl, by show (0.5 : ℝ) ≠ 5; norm_num⟩

/-! ### Claim C5 -/

/-- **C5** (amended): when `goal_threshold > 0` the division by
`distance` in the motion branch can never execute with `distance = 0`
(a zero distance always takes the arrival branch). There is, however,
no defensive guard in the code: see `claim5_counterexample`. -/
theorem claim5_no_div_by_zero_when_threshold_pos (r : Robot) (thr : ℝ)
    (hthr : 0 < thr) : ¬ reachesDivisionByZero r thr := by
  rintro ⟨h, hfar, hzero⟩
  rw [hzero] at hfar
  exact hfar hthr

/-- **C5** witness: no division by zero for the Scenario A robot with
`goal_threshold = 1`. -/
theorem claim5_witness :
    (0 : ℝ) < 1 ∧ ¬ reachesDivisionByZero scenarioRobot 1 :=
  ⟨by norm_num, claim5_no_div_by_zero_when_threshold_pos scenarioRobot 1 (by norm_num)⟩

/-- **C5** counterexample: with `goal_threshold = 0` and a robot standing
exactly on its current goal, the motion branch *is* executed with
`distance = 0`, so `dx / distance` divides by zero — the division is not
"guarded defensively" as the claim asserts (lines 117-121 have no
zero-distance check). -/
theorem claim5_counterexample : reachesDivisionByZero atGoalRobot 0 := by
  refine ⟨atGoalRobot_index_lt, ?_, atGoalRobot_distance⟩
  rw [atGoalRobot_distance]
  exact lt_irrefl 0

/-! ### Claim C9 -/

/-- **C9** (confirmed): in one advance call, goal arrival and motion are
mutually exclusive. Below the threshold only `goal_index` changes (the
pose is untouched); at or above it the pose is updated and `goal_index`
is untouched. -/
theorem claim9_arrival_motion_exclusive (r : Robot) (thr : ℝ)
    (h : r.goal_index < r.goals.length) :
    (goalDistance r (r.goals.get ⟨r.goal_index, h⟩) < thr →
      (updateRobotPosition r thr).goal_index = r.goal_index + 1 ∧
      (updateRobotPosition r thr).x = r.x ∧
      (updateRobotPosition r thr).y = r.y ∧
      (updateRobotPosition r thr).theta = r.theta) ∧
    (¬ goalDistance r (r.goals.get ⟨r.goal_index, h⟩) < thr →
      (updateRobotPosition r thr).goal_index = r.goal_index ∧
      (updateRobotPosition r thr).x =
        r.x + ((r.goals.get ⟨r.goal_index, h⟩).x - r.x) /
          goalDistance r (r.goals.get ⟨r.goal_index, h⟩) *
          min (r.max_speed * 0.1) (goalDistance r (r.goals.get ⟨r.goal_index, h⟩))) := by
  constructor
  · intro harr
    rw [updateRobotPosition_of_arrived r thr h harr]
    exact ⟨rfl, rfl, rfl, rfl⟩
  · intro hfar
    rw [updateRobotPosition_of_far r thr h hfar]
    exact ⟨rfl, rfl⟩

/-- **C9** witness: the arrival half applied to a robot standing on its
goal with `goal_threshold = 1`: `goal_index` advances and the pose is
unchanged. -/
theorem claim9_witness :
    atGoalRobot.goal_index < atGoalRobot.goals.length ∧
    ((updateRobotPosition atGoalRobot 1).goal_index = atGoalRobot.goal_index + 1 ∧
      (updateRobotPosition atGoalRobot 1).x = atGoalRobot.x ∧
      (updateRobotPosition atGoalRobot 1).y = atGoalRobot.y ∧
      (updateRobotPosition atGoalRobot 1).theta = atGoalRobot.theta) :=
  ⟨atGoalRobot_index_lt,
    (claim9_arrival_motion_exclusive atGoalRobot 1 atGoalRobot_index_lt).1
      (by rw [atGoalRobot_distance]; norm_num)⟩

/-! ### Claim C10 -/

/-- **C10** (confirmed): one call to `_update_robot_position` changes
`goal_index` by at most one, and the increment happens exactly through
the arrival branch (current goal exists and is within the threshold) —
an agent can never skip past an intermediate goal in one step. -/
theorem claim10_goal_index_increment_at_most_one (r : Robot) (thr : ℝ) :
    ((updateRobotPosition r thr).goal_index = r.goal_index ∨
      (updateRobotPosition r thr).goal_index = r.goal_index + 1) ∧
    ((updateRobotPosition r thr).goal_index = r.goal_index + 1 ↔
      ∃ h : r.goal_index < r.goals.length,
        goalDistance r (r.goals.get ⟨r.goal_index, h⟩) < thr) := by
  by_cases hdone : r.goals.length ≤ r.goal_index
  · rw [updateRobotPosition_of_done r thr hdone]
    refine ⟨Or.inl rfl, ?_, ?_⟩
    · intro habs; omega
    · rintro ⟨h, -⟩; omega
  · push_neg at hdone
    by_cases harr : goalDistance r (r.goals.get ⟨r.goal_index, hdone⟩) < thr
    · rw [updateRobotPosition_of_arrived r thr hdone harr]
      exact ⟨Or.inr rfl, fun _ => ⟨hdone, harr⟩, fun _ => rfl⟩
    · rw [updateRobotPosition_of_far r thr hdone harr]
      refine ⟨Or.inl rfl, ?_, ?_⟩
      · intro habs
        have habs' : r.goal_index = r.goal_index + 1 := habs
        omega
      · rintro ⟨h, harr'⟩
        exact absurd harr' harr

/-! ### Claim C7 -/

/-- **C7** (confirmed): along any sequence of steps (iterations of the
per-agent update), `goal_index` stays bounded by `len(goals)` (it is a
`Nat`, so `0 ≤ goal_index` always holds), is non-decreasing from each
step to the next, the goal list itself never changes, and once
`goal_index = len(goals)` the agent is never changed again. -/
theorem claim7_goal_index_invariants (r : Robot) (thr : ℝ)
    (h0 : r.goal_index ≤ r.goals.length) (k : ℕ) :
    ((fun s => updateRobotPosition s thr)^[k] r).goals = r.goals ∧
    ((fun s => updateRobotPosition s thr)^[k] r).goal_index ≤
      ((fun s => updateRobotPosition s thr)^[k + 1] r).goal_index ∧
    ((fun s => updateRobotPosition s thr)^[k] r).goal_index ≤ r.goals.length ∧
    (((fun s => updateRobotPosition s thr)^[k] r).goal_index = r.goals.length →
      (fun s => updateRobotPosition s thr)^[k + 1] r =
        (fun s => updateRobotPosition s thr)^[k] r) := by
  induction k with
  | zero =>
    refine ⟨rfl, ?_, h0, ?_⟩
    · rw [Function.iterate_one]
      exact updateRobotPosition_goal_index_mono r thr
    · intro hc
      rw [Function.iterate_zero_apply, Function.iterate_one]
      exact updateRobotPosition_of_done r thr (le_of_eq hc.symm)
  | succ k ih =>
    obtain ⟨ihg, ihmono, ihle, ihdone⟩ := ih
    have hstep : (fun s => updateRobotPosition s thr)^[k + 1] r =
        updateRobotPosition ((fun s => updateRobotPosition s thr)^[k] r) thr :=
      Function.iterate_succ_apply' _ _ _
    have hstep2 : (fun s => updateRobotPosition s thr)^[k + 1 + 1] r =
        updateRobotPosition ((fun s => updateRobotPosition s thr)^[k + 1] r) thr :=
      Function.iterate_succ_apply' _ _ _
    have hg1 : ((fun s => updateRobotPosition s thr)^[k + 1] r).goals = r.goals := by
      rw [hstep, updateRobotPosition_goals, ihg]
    refine ⟨hg1, ?_, ?_, ?_⟩
    · rw [hstep2]
      exact updateRobotPosition_goal_index_mono _ thr
    · rw [hstep]
      have := updateRobotPosition_goal_index_le
        ((fun s => updateRobotPosition s thr)^[k] r) thr (by rw [ihg]; exact ihle)
      rw [ihg] at this
      exact this
    · intro hc
      rw [hstep2]
      exact updateRobotPosition_of_done _ thr (by rw [hg1]; exact le_of_eq hc.symm)

/-- **C7** witness: the invariants for the Scenario A robot at step 0. -/
theorem claim7_witness :
    scenarioRobot.goal_index ≤ scenarioRobot.goals.length ∧
    (((fun s => updateRobotPosition s 1)^[0] scenarioRobot).goals = scenarioRobot.goals ∧
      ((fun s => updateRobotPosition s 1)^[0] scenarioRobot).goal_index ≤
        ((fun s => updateRobotPosition s 1)^[0 + 1] scenarioRobot).goal_index ∧
      ((fun s => updateRobotPosition s 1)^[0] scenarioRobot).goal_index ≤
        scenarioRobot.goals.length ∧
      (((fun s => updateRobotPosition s 1)^[0] scenarioRobot).goal_index =
          scenarioRobot.goals.length →
        (fun s => updateRobotPosition s 1)^[0 + 1] scenarioRobot =
          (fun s => updateRobotPosition s 1)^[0] scenarioRobot)) :=
  ⟨by decide, claim7_goal_index_invariants scenarioRobot 1 (by decide) 0⟩

/-! ### Claim C8 -/

/-- **C8** (confirmed): in an advance call that does not complete a goal
(`distance ≥ goal_threshold`), given `max_speed * 0.1 > 0` (the code's
hardcoded time scale standing for `max_linear_speed * time_step`), the
post-step distance to the same target is nonnegative and at most the
pre-step distance: the speed clamp prevents overshoot. -/
theorem claim8_monotonic_approach (r : Robot) (thr : ℝ)
    (h : r.goal_index < r.goals.length)
    (hfar : ¬ goalDistance r (r.goals.get ⟨r.goal_index, h⟩) < thr)
    (hm : 0 < r.max_speed * 0.1) :
    0 ≤ goalDistance (updateRobotPosition r thr) (r.goals.get ⟨r.goal_index, h⟩) ∧
    goalDistance (updateRobotPosition r thr) (r.goals.get ⟨r.goal_index, h⟩) ≤
      goalDistance r (r.goals.get ⟨r.goal_index, h⟩) := by
  have hd0 : 0 ≤ goalDistance r (r.goals.get ⟨r.goal_index, h⟩) := Real.sqrt_nonneg _
  constructor
  · exact Real.sqrt_nonneg _
  · rw [updateRobotPosition_of_far r thr h hfar]
    have hs0 : 0 ≤ min (r.max_speed * 0.1)
        (goalDistance r (r.goals.get ⟨r.goal_index, h⟩)) := le_min hm.le hd0
    have hsd : min (r.max_speed * 0.1)
        (goalDistance r (r.goals.get ⟨r.goal_index, h⟩)) ≤
          goalDistance r (r.goals.get ⟨r.goal_index, h⟩) := min_le_right _ _
    simp only [goalDistance]
    exact dist_shrink_le r.x r.y (r.goals.get ⟨r.goal_index, h⟩).x
      (r.goals.get ⟨r.goal_index, h⟩).y _
      hs0 (by simpa only [goalDistance] using hsd)

/-- **C8** witness: the monotonic-approach bound for the Scenario A
robot with `goal_threshold = 1` and `max_speed = 5`. -/
theorem claim8_witness :
    ((¬ goalDistance scenarioRobot
        (scenarioRobot.goals.get ⟨scenarioRobot.goal_index, scenarioRobot_index_lt⟩) < 1) ∧
      0 < scenarioRobot.max_speed * 0.1) ∧
    (0 ≤ goalDistance (updateRobotPosition scenarioRobot 1)
        (scenarioRobot.goals.get ⟨scenarioRobot.goal_index, scenarioRobot_index_lt⟩) ∧
      goalDistance (updateRobotPosition scenarioRobot 1)
          (scenarioRobot.goals.get ⟨scenarioRobot.goal_index, scenarioRobot_index_lt⟩) ≤
        goalDistance scenarioRobot
          (scenarioRobot.goals.get ⟨scenarioRobot.goal_index, scenarioRobot_index_lt⟩)) := by
  have hfar : ¬ goalDistance scenarioRobot
      (scenarioRobot.goals.get ⟨scenarioRobot.goal_index, scenarioRobot_index_lt⟩) < 1 := by
    rw [scenarioRobot_distance]
    norm_num
  have hm : 0 < scenarioRobot.max_speed * 0.1 := by
    show (0 : ℝ) < 5 * 0.1
    norm_num
  exact ⟨⟨hfar, hm⟩,
    claim8_monotonic_approach scenarioRobot 1 scenarioRobot_index_lt hfar hm⟩

/-! ### Claim C3 -/

/-- **C3** (amended): once `stopped` is observed, the loop guard fails
and the generator executes no further step and yields no frame; if the
counter had already reached `max_steps` the trailing check yields one
`completed` record, otherwise the sequence simply ends with *no*
terminal record at all — `run` has no "stopped" status record. -/
theorem claim3_stop_ends_stream_silently (p : Bool) (maxS : ℕ) (thr : ℝ)
    (fuel : ℕ) (robots : List Robot) (step : ℕ) :
    runAux p true maxS thr fuel robots step =
      some (if maxS ≤ step then [OutRec.completed] else [], step) := by
  cases fuel <;> · rw [runAux, if_neg (by simp)]

/-- **C3** counterexample: `stop()` called between pulls (so the loop
observes `stopped = true` with `step = 0 < max_steps = 5`): the next
pull yields *no* record at all — in particular not "exactly one
`StatusStopped` record"; the code's output vocabulary (`frame` /
`completed`) has no stopped tag, and the run ends with no terminal
record, contradicting the claimed {Completed, Stopped, Error}
termination. -/
theorem claim3_counterexample :
    runAux false true 5 1 0 [scenarioRobot] 0 = some ([], 0) := by
  rw [runAux, if_neg (by simp)]
  rfl

/-! ### Claim C6 -/

/-- **C6** (amended): calling `set_paused(False)` (resume) after
`stop()` is *silently accepted* — `set_paused` assigns the flag
unconditionally and has no failure path — but it does not re-enable
stepping: `stopped` remains `true`, so the run loop still refuses to
execute any further step. -/
theorem claim6_resume_after_stop_accepted_but_inert (s : RunnerFlags)
    (maxS : ℕ) (thr : ℝ) (fuel : ℕ) (robots : List Robot) (step : ℕ) :
    (set_paused (stop s) false).paused = false ∧
    (set_paused (stop s) false).stopped = true ∧
    runAux (set_paused (stop s) false).paused (set_paused (stop s) false).stopped
        maxS thr fuel robots step =
      some (if maxS ≤ step then [OutRec.completed] else [], step) := by
  refine ⟨rfl, rfl, ?_⟩
  show runAux false true maxS thr fuel robots step = _
  cases fuel <;> · rw [runAux, if_neg (by simp)]

/-- **C6** counterexample: the resume request on a stopped runner
*succeeds*: `set_paused` returns normally and updates the flags — there
is no rejection, no loud fail-fast error, contradicting the claim that
such a call "is rejected ... and does not succeed". -/
theorem claim6_counterexample :
    set_paused (stop { paused := false, stopped := false }) false =
      { paused := false, stopped := true } := rfl

/-! ### Claim C2 -/

/-- **C2** (amended): the `all_completed` flag of a step equals the
conjunction over all agents of `goal_index == len(goals)` evaluated
*before* (at the start of) that step's per-agent advances, and the step
reports completion exactly when that *pre-advance* conjunction holds:
if every agent is already complete when the iteration starts, the
iteration yields its frame and then the `completed` record; otherwise
the iteration yields its frame and the loop continues — so a step in
which an agent completes its last goal is *not* itself reported as
completed. -/
theorem claim2_completion_reported_from_pre_advance_flag (maxS : ℕ) (thr : ℝ)
    (fuel : ℕ) (robots : List Robot) (step : ℕ) (hstep : step < maxS) :
    (allCompletedFlag robots = true →
      runAux false false maxS thr (fuel + 1) robots step =
        some ([OutRec.frame (advanceRobots thr robots) step, OutRec.completed], step)) ∧
    (allCompletedFlag robots = false →
      runAux false false maxS thr (fuel + 1) robots step =
        Option.map (fun q => (OutRec.frame (advanceRobots thr robots) step :: q.1, q.2))
          (runAux false false maxS thr fuel (advanceRobots thr robots) (step + 1))) := by
  rw [runAux_running maxS thr fuel robots step hstep]
  constructor
  · intro hflag
    rw [if_pos hflag]
  · intro hflag
    rw [if_neg (by simp [hflag])]
    cases runAux false false maxS thr fuel (advanceRobots thr robots) (step + 1) with
    | none => rfl
    | some q => rfl

/-- **C2** witness: the characterization applied to a one-robot world
whose robot still has a goal outstanding (`flag = false` branch). -/
theorem claim2_witness :
    (0 < 5 ∧ allCompletedFlag [atGoalRobot] = false) ∧
    runAux false false 5 1 (0 + 1) [atGoalRobot] 0 =
      Option.map (fun q => (OutRec.frame (advanceRobots 1 [atGoalRobot]) 0 :: q.1, q.2))
        (runAux false false 5 1 0 (advanceRobots 1 [atGoalRobot]) (0 + 1)) :=
  ⟨⟨by norm_num, by decide⟩,
    (claim2_completion_reported_from_pre_advance_flag 5 1 0 [atGoalRobot] 0
      (by norm_num)).2 (by decide)⟩

/-- **C2** counterexample: a robot standing on its last goal with
`goal_threshold = 1`. At the start of the step the code's
`all_completed` flag is `false` (the robot's `goal_index` is still below
`len(goals)`), yet after that step's advance every agent satisfies
`goal_index == len(goals)` — the flag does *not* equal the post-advance
conjunction, so the step in which the last goal is completed is not
reported as completed. -/
theorem claim2_counterexample :
    allCompletedFlag [atGoalRobot] = false ∧
    (advanceRobots 1 [atGoalRobot]).all
      (fun r => decide (r.goal_index = r.goals.length)) = true := by
  refine ⟨by decide, ?_⟩
  rw [advance_atGoalRobot]
  decide

/-! ### Claim C4 -/

/-- **C4** (amended): along every terminating unpaused run, the step
counter never decreases (`step ≤ fin`), and it increases by exactly one
per loop iteration that ends with outcome "advanced" — but *not* in the
iteration that reports all-goals completion: when the run ends through
the completion `break` (which leaves `fin < max_steps`), the final
counter equals the initial counter plus the number of executed steps
(rendered frames) *minus one*, because the final completed iteration
`break`s before `step += 1`; only a run that exits through the
`step < max_steps` guard has counter = initial + number of frames. -/
theorem claim4_step_count_accounting (maxS : ℕ) (thr : ℝ) :
    ∀ (fuel : ℕ) (robots : List Robot) (step : ℕ) (out : List OutRec) (fin : ℕ),
      runAux false false maxS thr fuel robots step = some (out, fin) →
      step ≤ fin ∧ fin + (if fin < maxS then 1 else 0) = step + countFrames out := by
  intro fuel
  induction fuel with
  | zero =>
    intro robots step out fin heq
    by_cases hstep : step < maxS
    · rw [runAux, if_pos ⟨hstep, rfl⟩] at heq
      exact absurd heq (by simp)
    · rw [runAux_exit false false maxS thr 0 robots step (fun hc => hstep hc.1)] at heq
      simp only [Option.some.injEq, Prod.mk.injEq] at heq
      obtain ⟨ho, hf⟩ := heq
      subst hf
      subst ho
      refine ⟨le_refl _, ?_⟩
      rw [if_neg hstep, if_pos (le_of_not_lt hstep)]
      rfl
  | succ fuel ih =>
    intro robots step out fin heq
    by_cases hstep : step < maxS
    · rw [runAux_running maxS thr fuel robots step hstep] at heq
      by_cases hflag : allCompletedFlag robots = true
      · rw [if_pos hflag] at heq
        simp only [Option.some.injEq, Prod.mk.injEq] at heq
        obtain ⟨ho, hf⟩ := heq
        subst hf
        subst ho
        refine ⟨le_refl _, ?_⟩
        rw [if_pos hstep]
        rfl
      · rw [if_neg hflag] at heq
        rcases hrec : runAux false false maxS thr fuel (advanceRobots thr robots)
            (step + 1) with - | q
        · rw [hrec] at heq
          exact absurd heq (by simp)
        · obtain ⟨rest, fin'⟩ := q
          rw [hrec] at heq
          simp only [Option.some.injEq, Prod.mk.injEq] at heq
          obtain ⟨ho, hf⟩ := heq
          subst hf
          subst ho
          obtain ⟨iha, ihb⟩ := ih (advanceRobots thr robots) (step + 1) rest fin' hrec
          have hcf : countFrames (OutRec.frame (advanceRobots thr robots) step :: rest) =
              countFrames rest + 1 := rfl
          rw [hcf]
          constructor
          · omega
          · split_ifs at ihb ⊢ with hfin
            · omega
            · omega
    · rw [runAux_exit false false maxS thr (fuel + 1) robots step (fun hc => hstep hc.1)] at heq
      simp only [Option.some.injEq, Prod.mk.injEq] at heq
      obtain ⟨ho, hf⟩ := heq
      subst hf
      subst ho
      refine ⟨le_refl _, ?_⟩
      rw [if_neg hstep, if_pos (le_of_not_lt hstep)]
      rfl

/-- **C4** witness: the accounting applied to a run with no robots
(`all_completed` is vacuously true): one executed step, one rendered
frame, and a final counter of `0`. -/
theorem claim4_witness :
    runAux false false 1 1 1 [] 0 = some ([OutRec.frame [] 0, OutRec.completed], 0) ∧
    (0 ≤ 0 ∧ 0 + (if 0 < 1 then 1 else 0) =
      0 + countFrames [OutRec.frame [] 0, OutRec.completed]) := by
  have heq : runAux false false 1 1 1 [] 0 =
      some ([OutRec.frame [] 0, OutRec.completed], 0) := by
    show runAux false false 1 1 (0 + 1) [] 0 = _
    rw [runAux_running 1 1 0 [] 0 (by norm_num)]
    rfl
  exact ⟨heq,
    claim4_step_count_accounting 1 1 1 [] 0 [OutRec.frame [] 0, OutRec.completed] 0 heq⟩

/-- **C4** counterexample: a robot standing on its single goal, with
`max_steps = 5`. The run executes two steps (two frames are rendered, at
step labels 0 and 1) and ends with the completion record, yet the final
step counter is `1`, not `2`: the iteration whose outcome is
"all goals reached" `break`s out of the loop *before* `step += 1`, so
the counter does not increase by 1 on that executed step, contradicting
the claim. -/
theorem claim4_counterexample :
    runAux false false 5 1 2 [atGoalRobot] 0 =
      some ([OutRec.frame [{ atGoalRobot with goal_index := 1 }] 0,
             OutRec.frame [{ atGoalRobot with goal_index := 1 }] 1,
             OutRec.completed], 1) := by
  have h1 : runAux false false 5 1 1 [{ atGoalRobot with goal_index := 1 }] 1 =
      some ([OutRec.frame [{ atGoalRobot with goal_index := 1 }] 1, OutRec.completed], 1) := by
    show runAux false false 5 1 (0 + 1) [{ atGoalRobot with goal_index := 1 }] 1 = _
    rw [runAux_running 5 1 0 [{ atGoalRobot with goal_index := 1 }] 1 (by norm_num)]
    rw [if_pos (by decide), advance_completedRobot]
  show runAux false false 5 1 (1 + 1) [atGoalRobot] 0 = _
  rw [runAux_running 5 1 1 [atGoalRobot] 0 (by norm_num)]
  rw [if_neg (by decide), advance_atGoalRobot, h1]

end RoboSim
